import Mathlib

/-!
Verification of the snapshot-naming and publish pipeline of the
GetCityBikeData repository (two Python scripts: `auto_update_script.py`
and `get_citybike_snapshots.py`), via a shallow embedding in Lean.

External collaborators (the HTTP transport, the filesystem, the GitHub
REST API, and the wall clock) are modelled as oracles: each run model
takes a world record carrying the outcome of every external call the
script can make, and returns the traces of directory creations, file
writes, HTTP requests, remote hosting-platform calls and printed/logged
messages, together with the process exit code.
-/

/-- A wall-clock instant as its local calendar components in the configured
time zone (the scripts read `datetime.now(pytz.timezone("America/New_York"))`;
the time-zone conversion itself is library code and is not modelled — a
`DateTime` is the value such a call returns). Python's `datetime` guarantees
`1 ≤ year ≤ 9999`, `1 ≤ month ≤ 12`, `1 ≤ day ≤ 31`, `hour < 24`,
`minute < 60`, `second < 60`. -/
structure DateTime where
  year : Nat
  month : Nat
  day : Nat
  hour : Nat
  minute : Nat
  second : Nat
deriving Repr, DecidableEq

/-- Bounds guaranteed by Python's `datetime` (stated loosely: every real
`datetime` value satisfies them). -/
def DateTime.valid (t : DateTime) : Prop :=
  t.year < 10000 ∧ t.month < 100 ∧ t.day < 100 ∧
    t.hour < 100 ∧ t.minute < 100 ∧ t.second < 100

instance (t : DateTime) : Decidable t.valid := by
  unfold DateTime.valid; infer_instance

/-- strftime zero-padded two-digit field (`%m`, `%d`, `%H`, `%M`, `%S`):
faithful to CPython for the argument ranges `datetime` can produce
(always < 100). -/
def pad2 (n : Nat) : String :=
  String.mk [Nat.digitChar (n / 10 % 10), Nat.digitChar (n % 10)]

/-- strftime zero-padded four-digit year (`%Y`): faithful to CPython for
`year ≤ 9999`. -/
def pad4 (n : Nat) : String :=
  String.mk [Nat.digitChar (n / 1000 % 10), Nat.digitChar (n / 100 % 10),
    Nat.digitChar (n / 10 % 10), Nat.digitChar (n % 10)]

/-- `strftime("%Y-%m-%d")` — the folder name of `auto_update_script.main`. -/
def fmtISODate (t : DateTime) : String :=
  pad4 t.year ++ "-" ++ pad2 t.month ++ "-" ++ pad2 t.day

/-- `strftime("%Y-%m-%d_%H-%M-%S")` — the file-name timestamp of
`auto_update_script.main`. -/
def fmtFileTs (t : DateTime) : String :=
  pad4 t.year ++ "-" ++ pad2 t.month ++ "-" ++ pad2 t.day ++ "_" ++
    pad2 t.hour ++ "-" ++ pad2 t.minute ++ "-" ++ pad2 t.second

/-- `strftime("%Y%m%d_%H%M%S")` — the `current_time` string of
`create_branch_and_pr` (line 45 of `auto_update_script.py`). -/
def fmtBranchTs (t : DateTime) : String :=
  pad4 t.year ++ pad2 t.month ++ pad2 t.day ++ "_" ++
    pad2 t.hour ++ pad2 t.minute ++ pad2 t.second

/-- `strftime("%d-%m-%Y")` — `date_str` of `get_citybike_snapshots.py`
(line 29). -/
def fmtDMYDate (t : DateTime) : String :=
  pad2 t.day ++ "-" ++ pad2 t.month ++ "-" ++ pad4 t.year

/-- `f"data-update-{current_time}"` (line 46 of `auto_update_script.py`). -/
def new_branch_name (t : DateTime) : String :=
  "data-update-" ++ fmtBranchTs t

theorem digitChar_inj :
    ∀ a, a < 10 → ∀ b, b < 10 → Nat.digitChar a = Nat.digitChar b → a = b := by
  decide

theorem fmtBranchTs_data (t : DateTime) :
    (fmtBranchTs t).data =
      [Nat.digitChar (t.year / 1000 % 10), Nat.digitChar (t.year / 100 % 10),
       Nat.digitChar (t.year / 10 % 10), Nat.digitChar (t.year % 10),
       Nat.digitChar (t.month / 10 % 10), Nat.digitChar (t.month % 10),
       Nat.digitChar (t.day / 10 % 10), Nat.digitChar (t.day % 10), Char.ofNat 95,
       Nat.digitChar (t.hour / 10 % 10), Nat.digitChar (t.hour % 10),
       Nat.digitChar (t.minute / 10 % 10), Nat.digitChar (t.minute % 10),
       Nat.digitChar (t.second / 10 % 10), Nat.digitChar (t.second % 10)] := by
  rfl

theorem fmtBranchTs_inj (t1 t2 : DateTime)
    (h1 : t1.valid) (h2 : t2.valid)
    (h : fmtBranchTs t1 = fmtBranchTs t2) : t1 = t2 := by
  obtain ⟨hy1, hm1, hd1, hh1, hmi1, hs1⟩ := h1
  obtain ⟨hy2, hm2, hd2, hh2, hmi2, hs2⟩ := h2
  have hd := congrArg String.data h
  rw [fmtBranchTs_data, fmtBranchTs_data] at hd
  simp only [List.cons.injEq, and_true] at hd
  obtain ⟨e1, e2, e3, e4, e5, e6, e7, e8, _, e9, e10, e11, e12, e13, e14⟩ := hd
  have y1 : t1.year / 1000 % 10 = t2.year / 1000 % 10 :=
    digitChar_inj _ (Nat.mod_lt _ (by omega)) _ (Nat.mod_lt _ (by omega)) e1
  have y2 : t1.year / 100 % 10 = t2.year / 100 % 10 :=
    digitChar_inj _ (Nat.mod_lt _ (by omega)) _ (Nat.mod_lt _ (by omega)) e2
  have y3 : t1.year / 10 % 10 = t2.year / 10 % 10 :=
    digitChar_inj _ (Nat.mod_lt _ (by omega)) _ (Nat.mod_lt _ (by omega)) e3
  have y4 : t1.year % 10 = t2.year % 10 :=
    digitChar_inj _ (Nat.mod_lt _ (by omega)) _ (Nat.mod_lt _ (by omega)) e4
  have m1 : t1.month / 10 % 10 = t2.month / 10 % 10 :=
    digitChar_inj _ (Nat.mod_lt _ (by omega)) _ (Nat.mod_lt _ (by omega)) e5
  have m2 : t1.month % 10 = t2.month % 10 :=
    digitChar_inj _ (Nat.mod_lt _ (by omega)) _ (Nat.mod_lt _ (by omega)) e6
  have d1 : t1.day / 10 % 10 = t2.day / 10 % 10 :=
    digitChar_inj _ (Nat.mod_lt _ (by omega)) _ (Nat.mod_lt _ (by omega)) e7
  have d2 : t1.day % 10 = t2.day % 10 :=
    digitChar_inj _ (Nat.mod_lt _ (by omega)) _ (Nat.mod_lt _ (by omega)) e8
  have hh1e : t1.hour / 10 % 10 = t2.hour / 10 % 10 :=
    digitChar_inj _ (Nat.mod_lt _ (by omega)) _ (Nat.mod_lt _ (by omega)) e9
  have hh2e : t1.hour % 10 = t2.hour % 10 :=
    digitChar_inj _ (Nat.mod_lt _ (by omega)) _ (Nat.mod_lt _ (by omega)) e10
  have mi1e : t1.minute / 10 % 10 = t2.minute / 10 % 10 :=
    digitChar_inj _ (Nat.mod_lt _ (by omega)) _ (Nat.mod_lt _ (by omega)) e11
  have mi2e : t1.minute % 10 = t2.minute % 10 :=
    digitChar_inj _ (Nat.mod_lt _ (by omega)) _ (Nat.mod_lt _ (by omega)) e12
  have s1e : t1.second / 10 % 10 = t2.second / 10 % 10 :=
    digitChar_inj _ (Nat.mod_lt _ (by omega)) _ (Nat.mod_lt _ (by omega)) e13
  have s2e : t1.second % 10 = t2.second % 10 :=
    digitChar_inj _ (Nat.mod_lt _ (by omega)) _ (Nat.mod_lt _ (by omega)) e14
  obtain ⟨a1, a2, a3, a4, a5, a6⟩ := t1
  obtain ⟨b1, b2, b3, b4, b5, b6⟩ := t2
  simp only [DateTime.mk.injEq]
  simp_all only []
  omega

/-- C8: two runs produce equal branch names `data-update-<%Y%m%d_%H%M%S>` if
and only if the instants from which the names are derived agree to the
second (in the configured zone); the name is a function of that timestamp
alone, so no uniqueness defence beyond it exists. -/
theorem C8_branch_name_unique_iff_same_second (t1 t2 : DateTime)
    (h1 : t1.valid) (h2 : t2.valid) :
    new_branch_name t1 = new_branch_name t2 ↔ t1 = t2 := by
  constructor
  · intro h
    apply fmtBranchTs_inj t1 t2 h1 h2
    have hd := congrArg String.data h
    simp only [new_branch_name] at hd
    have hd2 : ("data-update-".data ++ (fmtBranchTs t1).data) =
        ("data-update-".data ++ (fmtBranchTs t2).data) := by
      simpa [String.data_append] using hd
    exact String.ext (List.append_cancel_left hd2)
  · intro h; rw [h]

/-- Witness for C8 at two concrete instants. -/
theorem C8_branch_name_unique_iff_same_second_witness :
    new_branch_name ⟨2024, 1, 5, 14, 30, 0⟩ =
        new_branch_name ⟨2024, 1, 5, 14, 30, 0⟩ ↔
      (⟨2024, 1, 5, 14, 30, 0⟩ : DateTime) = ⟨2024, 1, 5, 14, 30, 0⟩ :=
  C8_branch_name_unique_iff_same_second ⟨2024, 1, 5, 14, 30, 0⟩
    ⟨2024, 1, 5, 14, 30, 0⟩ (by decide) (by decide)

/-! ## Python values and JSON parsing

`get_citybike_snapshots.py` calls `response.json()` (parse the body as
JSON) and later writes `str(data)` — Python's textual rendering of the
parsed object. Both are modelled here: `PyVal` is the value universe
`json.loads` produces (floats and string escapes excluded: the
counterexamples below use neither), `jsonLoads` is a recursive-descent
parser faithful to `json.loads` on that universe, and `pyStr` is
CPython's `str()` of such values. -/

inductive PyVal where
  | str (s : String)
  | int (n : Int)
  | bool (b : Bool)
  | none
  | list (xs : List PyVal)
  | dict (kvs : List (String × PyVal))
deriving Repr

/-- The single-quote character, as used by Python `repr` of strings. -/
def pyQuote : String := String.singleton (Char.ofNat 39)

mutual

/-- CPython `str()` (= `repr`) of a parsed-JSON value: single-quoted
strings, `True`/`False`/`None`, `[...]`/`\x7b...\x7d` with `, ` and `: `
separators. -/
def pyStr : PyVal → String
  | .str s => pyQuote ++ s ++ pyQuote
  | .int n => toString n
  | .bool b => if b then "True" else "False"
  | .none => "None"
  | .list xs => "[" ++ pyStrItems xs ++ "]"
  | .dict kvs => "\x7b" ++ pyStrPairs kvs ++ "\x7d"

def pyStrItems : List PyVal → String
  | [] => ""
  | [v] => pyStr v
  | v :: vs => pyStr v ++ ", " ++ pyStrItems vs

def pyStrPairs : List (String × PyVal) → String
  | [] => ""
  | [(k, v)] => pyQuote ++ k ++ pyQuote ++ ": " ++ pyStr v
  | (k, v) :: rest => pyQuote ++ k ++ pyQuote ++ ": " ++ pyStr v ++ ", " ++ pyStrPairs rest

end

def isWsChar (c : Char) : Bool :=
  c = ' ' ∨ c = Char.ofNat 9 ∨ c = Char.ofNat 10 ∨ c = Char.ofNat 13

def skipWs : List Char → List Char
  | [] => []
  | c :: cs => if isWsChar c then skipWs cs else c :: cs

/-- Scan a JSON string body up to the closing quote (no escape sequences:
a backslash makes the parse fail, keeping the model honest about its
scope). -/
def scanStr : Nat → List Char → Option (String × List Char)
  | 0, _ => Option.none
  | _ + 1, [] => Option.none
  | fuel + 1, c :: cs =>
    if c = '"' then some ("", cs)
    else if c = Char.ofNat 92 then Option.none
    else match scanStr fuel cs with
      | some (s, rest) => some (String.singleton c ++ s, rest)
      | Option.none => Option.none

def scanDigits : Nat → List Char → Nat → Option Nat × List Char
  | 0, cs, _ => (Option.none, cs)
  | _ + 1, [], acc => (some acc, [])
  | fuel + 1, c :: cs, acc =>
    if c.isDigit then
      match scanDigits fuel cs (10 * acc + (c.toNat - 48)) with
      | (Option.none, _) => (Option.none, cs)
      | (some n, rest) => (some n, rest)
    else (some acc, c :: cs)

mutual

/-- One JSON value at the head of the input (whitespace already the
caller's concern), returning the value and the unconsumed rest. -/
def parseVal : Nat → List Char → Option (PyVal × List Char)
  | 0, _ => Option.none
  | _ + 1, [] => Option.none
  | fuel + 1, c :: cs =>
    if c = '"' then
      match scanStr (fuel + 1) cs with
      | some (s, rest) => some (.str s, rest)
      | Option.none => Option.none
    else if c = '[' then
      match skipWs cs with
      | ']' :: rest => some (.list [], rest)
      | cs2 => match parseItems fuel cs2 with
        | some (xs, rest) => some (.list xs, rest)
        | Option.none => Option.none
    else if c = Char.ofNat 123 then
      match skipWs cs with
      | Char.ofNat 125 :: rest => some (.dict [], rest)
      | cs2 => match parsePairs fuel cs2 with
        | some (kvs, rest) => some (.dict kvs, rest)
        | Option.none => Option.none
    else if c = 't' then
      match cs with
      | 'r' :: 'u' :: 'e' :: rest => some (.bool true, rest)
      | _ => Option.none
    else if c = 'f' then
      match cs with
      | 'a' :: 'l' :: 's' :: 'e' :: rest => some (.bool false, rest)
      | _ => Option.none
    else if c = 'n' then
      match cs with
      | 'u' :: 'l' :: 'l' :: rest => some (.none, rest)
      | _ => Option.none
    else if c = '-' then
      match cs with
      | d :: ds =>
        if d.isDigit then
          match scanDigits (fuel + 1) ds (d.toNat - 48) with
          | (some n, rest) => some (.int (-(n : Int)), rest)
          | (Option.none, _) => Option.none
        else Option.none
      | [] => Option.none
    else if c.isDigit then
      match scanDigits (fuel + 1) cs (c.toNat - 48) with
      | (some n, rest) => some (.int (n : Int), rest)
      | (Option.none, _) => Option.none
    else Option.none

/-- Comma-separated array elements up to the closing bracket. -/
def parseItems : Nat → List Char → Option (List PyVal × List Char)
  | 0, _ => Option.none
  | fuel + 1, cs =>
    match parseVal fuel (skipWs cs) with
    | some (v, rest) =>
      match skipWs rest with
      | ',' :: rest2 =>
        (match parseItems fuel rest2 with
          | some (xs, rest3) => some (v :: xs, rest3)
          | Option.none => Option.none)
      | ']' :: rest2 => some ([v], rest2)
      | _ => Option.none
    | Option.none => Option.none

/-- Comma-separated object members up to the closing brace. -/
def parsePairs : Nat → List Char → Option (List (String × PyVal) × List Char)
  | 0, _ => Option.none
  | fuel + 1, cs =>
    match skipWs cs with
    | '"' :: cs2 =>
      match scanStr fuel cs2 with
      | some (k, rest) =>
        (match skipWs rest with
          | ':' :: rest2 =>
            (match parseVal fuel (skipWs rest2) with
              | some (v, rest3) =>
                (match skipWs rest3 with
                  | ',' :: rest4 =>
                    (match parsePairs fuel rest4 with
                      | some (kvs, rest5) => some ((k, v) :: kvs, rest5)
                      | Option.none => Option.none)
                  | Char.ofNat 125 :: rest4 => some ([(k, v)], rest4)
                  | _ => Option.none)
              | Option.none => Option.none)
          | _ => Option.none)
      | Option.none => Option.none
    | _ => Option.none

end

/-- `json.loads` on the modelled universe: parse one value, require only
whitespace after it. -/
def jsonLoads (s : String) : Option PyVal :=
  match parseVal (s.length + 1) (skipWs s.data) with
  | some (v, rest) => if skipWs rest = [] then some v else Option.none
  | Option.none => Option.none

example : jsonLoads "\x7b\"data\":[\"x\"]\x7d" =
    some (.dict [("data", .list [.str "x"])]) := by rfl

example : pyStr (.dict [("data", .list [.str "x"])]) =
    "\x7b" ++ pyQuote ++ "data" ++ pyQuote ++ ": [" ++ pyQuote ++ "x" ++ pyQuote ++ "]\x7d" := by
  rfl

/-! ## HTTP responses and the simpler variant `get_citybike_snapshots.py` -/

/-- An HTTP response as `requests.get` delivers it: final status code and
decoded body text. -/
structure HttpResponse where
  status : Nat
  text : String
deriving Repr, DecidableEq

/-- `response.raise_for_status()`: raises `requests.exceptions.HTTPError`
exactly when the status code is a client or server error (400–599; codes
above 599 do not occur). -/
def raise_for_status (r : HttpResponse) : Except String Unit :=
  if 400 ≤ r.status then .error (toString r.status ++ " Error for url") else .ok ()

/-- What one run of the module-level script `get_citybike_snapshots.py`
leaves behind. The script never calls `sys.exit` and its only fallible
statements are wrapped in try/except, so (absent a local I/O fault, which
the script does not handle) it always terminates normally: `exitCode = 0`
is part of the run result, not an assumption. The start-up log line and
the total-time log line (whose text depends on unmodelled real time) are
omitted from `logs`. -/
structure SnapResult where
  exitCode : Nat
  data : PyVal
  logs : List String
  dirs : List String
  writes : List (String × String)
  httpGets : List String
deriving Repr

namespace Snapshots

/-- The source URL hard-coded at line 14 of `get_citybike_snapshots.py`. -/
def city_bike_station_status : String :=
  "https://gbfs.citibikenyc.com/gbfs/en/station_status.json"

/-- Shallow embedding of the module-level run of
`get_citybike_snapshots.py` (lines 16–40). `httpResult` is the outcome of
`requests.get` (transport-error message or response); `now` is what
`datetime.now(ny_tz)` returns; `folderExists` is the `os.path.exists`
answer for the date folder. A failing fetch (transport error, error
status via `raise_for_status`, or unparsable JSON body — all
`requests.exceptions.RequestException`s) is caught: the run logs the
failure, sets `data = \x7b\x7d`, and still writes the snapshot file with
`str(data)`. -/
def run (httpResult : Except String HttpResponse) (now : DateTime)
    (folderExists : Bool) : SnapResult :=
  let fetched : Except String PyVal :=
    match httpResult with
    | .error e => .error e
    | .ok response =>
      match raise_for_status response with
      | .error e => .error e
      | .ok _ =>
        match jsonLoads response.text with
        | some v => .ok v
        | Option.none => .error ("Expecting value: " ++ response.text)
  let (data, fetchLogs) :=
    match fetched with
    | .ok v => (v, ["Obtained response successfully. " ++ pyStr v])
    | .error e => (PyVal.dict [], ["Failed to fetch data: " ++ e])
  let date_str := fmtDMYDate now
  let time_str := pad2 now.hour
  let folder_name := date_str
  let made := if folderExists then ([] : List String) else [folder_name]
  let file_name := folder_name ++ "/" ++ date_str ++ "_Hour-" ++ time_str ++ ".txt"
  { exitCode := 0
    data := data
    logs := fetchLogs
    dirs := made
    writes := [(file_name, pyStr data)]
    httpGets := [city_bike_station_status] }

end Snapshots

/-! ## `auto_update_script.py`: the fetch stage -/

/-- Outcomes of the three external actions `fetch_citybike_data` can take,
in program order: `os.makedirs`, `requests.get`, and the file write.
Each entry carries the exception message on failure. -/
structure FetchWorld where
  makedirsResult : Except String Unit
  httpResult : Except String HttpResponse
  writeResult : Except String Unit
deriving Repr

/-- What one call of `fetch_citybike_data` did: its return value
(`some output_path` or `none`), and the traces of directories created,
GETs issued, files written and lines printed. -/
structure FetchResult where
  ret : Option String
  dirs : List String
  httpGets : List String
  writes : List (String × String)
  prints : List String
deriving Repr

/-- Shallow embedding of `fetch_citybike_data` (lines 11–31 of
`auto_update_script.py`). The whole body is one try/except: any failure —
directory creation, transport, error status from `raise_for_status`, or
file write — is caught, one `Error downloading data:` line is printed,
and `None` is returned. On success the raw `response.text` is written
unchanged to `output_folder/output_file`. -/
def fetch_citybike_data (w : FetchWorld)
    (api_url output_folder output_file : String) : FetchResult :=
  match w.makedirsResult with
  | .error e =>
    { ret := Option.none, dirs := [], httpGets := [], writes := []
      prints := ["Error downloading data: " ++ e] }
  | .ok _ =>
    let output_path := output_folder ++ "/" ++ output_file
    match w.httpResult with
    | .error e =>
      { ret := Option.none, dirs := [output_folder], httpGets := [api_url]
        writes := [], prints := ["Error downloading data: " ++ e] }
    | .ok response =>
      match raise_for_status response with
      | .error e =>
        { ret := Option.none, dirs := [output_folder], httpGets := [api_url]
          writes := [], prints := ["Error downloading data: " ++ e] }
      | .ok _ =>
        match w.writeResult with
        | .error e =>
          { ret := Option.none, dirs := [output_folder], httpGets := [api_url]
            writes := [], prints := ["Error downloading data: " ++ e] }
        | .ok _ =>
          { ret := some output_path, dirs := [output_folder]
            httpGets := [api_url], writes := [(output_path, response.text)]
            prints := ["Successfully downloaded data to " ++ output_path] }

/-! ## `auto_update_script.py`: the publisher -/

/-- An error from a PyGithub call. The Python code catches bare
`Exception`, so its handlers cannot (and do not) inspect which kind was
raised; the distinction exists only so that statements about the model
can talk about not-found versus other failures. -/
inductive GhErr where
  | notFound
  | other (msg : String)
deriving Repr, DecidableEq

def GhErr.message : GhErr → String
  | .notFound => "404 Not Found"
  | .other m => m

/-- One remote hosting-platform call, with the arguments the script passes. -/
inductive RemoteCall where
  | getRepo (name : String)
  | getGitRef (ref : String)
  | createGitRef (ref : String) (sha : String)
  | getContents (path : String) (ref : String)
  | createFile (path : String) (message : String) (content : String) (branch : String)
  | updateFile (path : String) (message : String) (content : String) (sha : String)
      (branch : String)
  | createPull (title : String) (body : String) (head : String) (base : String)
  | addToLabels (prNumber : Nat) (label : String)
  | autoMergePut (endpoint : String) (authToken : String) (mergeMethod : String)
deriving Repr, DecidableEq

/-- Outcomes of the remote calls `create_branch_and_pr` can make, in
program order. `getRefResult` carries the tip sha of the default branch,
`fileContentsResult` the revision sha of the existing remote file,
`createPullResult` the new PR number, and `autoMergeResult` the response
to the direct `requests.put` (or a transport-error message). -/
structure RemoteWorld where
  getRepoResult : Except GhErr Unit
  defaultBranch : String
  getRefResult : Except GhErr String
  createRefResult : Except GhErr Unit
  folderContentsResult : Except GhErr Unit
  gitkeepCreateResult : Except GhErr Unit
  fileContentsResult : Except GhErr String
  updateFileResult : Except GhErr Unit
  createFileResult : Except GhErr Unit
  createPullResult : Except GhErr Nat
  addLabelsResult : Except GhErr Unit
  autoMergeResult : Except String HttpResponse
deriving Repr

/-- What one call of `create_branch_and_pr` did: its boolean return value,
the remote calls it issued in order, and the lines it printed. -/
structure PubResult where
  success : Bool
  calls : List RemoteCall
  prints : List String
deriving Repr

/-- The outer `except Exception` of `create_branch_and_pr`: print the
error and return `False`, keeping whatever calls were already issued. -/
def ghFail (calls : List RemoteCall) (prints : List String) (e : String) :
    PubResult :=
  { success := false, calls := calls
    prints := prints ++ ["Error in GitHub operations: " ++ e] }

/-- `os.path.basename`: the part after the last slash (defined by
structural recursion over the characters so that it evaluates inside
proofs). -/
def basename (s : String) : String :=
  String.mk ((s.data.reverse.takeWhile (fun c => !(c = '/'))).reverse)

/-- Shallow embedding of `create_branch_and_pr` (lines 33–140 of
`auto_update_script.py`). `fs` is the local filesystem (path ↦ content)
from which line 57 reads the snapshot back; `pubNow` is what the
`datetime.now(ny_tz)` call at line 45 — a second clock read, distinct
from the one in `main` — returns. The folder-existence check and the
file-existence check each live in their own `try`/`except Exception`
block, so ANY failure of those reads (or of `update_file`, which shares
the second block) selects the create path; every other failure reaches
the outer handler, which stops the run and returns `False`. The final
auto-merge request has its own handler and never fails the run.
`contents.path` of a successful `get_contents` is the queried path, so
the update call is recorded with `repo_file_path` itself. The 60-second
`time.sleep` has no modelled effect. -/
def create_branch_and_pr (w : RemoteWorld) (fs : List (String × String))
    (pubNow : DateTime)
    (github_token repo_name file_path folder_path : String) : PubResult :=
  let calls0 := [RemoteCall.getRepo repo_name]
  match w.getRepoResult with
  | .error e => ghFail calls0 [] e.message
  | .ok _ =>
  let default_branch := w.defaultBranch
  let current_time := fmtBranchTs pubNow
  let branch := new_branch_name pubNow
  let calls1 := calls0 ++ [RemoteCall.getGitRef ("heads/" ++ default_branch)]
  match w.getRefResult with
  | .error e => ghFail calls1 [] e.message
  | .ok source_sha =>
  let calls2 := calls1 ++ [RemoteCall.createGitRef ("refs/heads/" ++ branch) source_sha]
  match w.createRefResult with
  | .error e => ghFail calls2 [] e.message
  | .ok _ =>
  let prints2 := ["Created new branch: " ++ branch]
  match fs.lookup file_path with
  | Option.none =>
    ghFail calls2 prints2 ("No such file or directory: " ++ file_path)
  | some content =>
  let repo_folder_path := basename folder_path
  let file_name := basename file_path
  let repo_file_path := repo_folder_path ++ "/" ++ file_name
  -- shared continuation: everything after the create-vs-update decision
  let afterFile : List RemoteCall → List String → PubResult := fun callsA printsA =>
    let title := "Update CitiBike Data - " ++ current_time
    let prBody := "Automatically generated PR with updated CitiBike data for " ++
      repo_folder_path ++ "/" ++ file_name ++ "."
    let callsB := callsA ++ [RemoteCall.createPull title prBody branch default_branch]
    match w.createPullResult with
    | .error e => ghFail callsB printsA e.message
    | .ok prNumber =>
      let printsB := printsA ++ ["Created PR #" ++ toString prNumber]
      let callsC := callsB ++ [RemoteCall.addToLabels prNumber "auto-merge"]
      match w.addLabelsResult with
      | .error e => ghFail callsC printsB e.message
      | .ok _ =>
        let printsC := printsB ++
          ["Added auto-merge label to PR", "Waiting for CI checks to complete..."]
        let endpoint := "https://api.github.com/repos/" ++ repo_name ++
          "/pulls/" ++ toString prNumber ++ "/auto_merge"
        let callsD := callsC ++ [RemoteCall.autoMergePut endpoint github_token "squash"]
        -- the auto-merge outcome decides only which line is printed:
        -- the run returns True (and issues no further call) either way
        let autoMergeMsg :=
          match w.autoMergeResult with
          | .ok resp =>
            if resp.status = 200 ∨ resp.status = 202 then
              "Auto-merge enabled for PR #" ++ toString prNumber
            else
              "Failed to enable auto-merge: " ++ toString resp.status ++
                " - " ++ resp.text
          | .error e => "Error enabling auto-merge: " ++ e
        { success := true, calls := callsD, prints := printsC ++ [autoMergeMsg] }
  -- the create-vs-update decision, reached through the folder check
  let fileStep : List RemoteCall → List String → PubResult := fun callsA printsA =>
    let callsB := callsA ++ [RemoteCall.getContents repo_file_path branch]
    let createStep : List RemoteCall → PubResult := fun callsC =>
      let callsD := callsC ++ [RemoteCall.createFile repo_file_path
        ("Add " ++ file_name ++ " - " ++ current_time) content branch]
      match w.createFileResult with
      | .error e => ghFail callsD printsA e.message
      | .ok _ => afterFile callsD (printsA ++
          ["Created new file " ++ repo_file_path ++ " in branch " ++ branch])
    match w.fileContentsResult with
    | .ok contents_sha =>
      let callsC := callsB ++ [RemoteCall.updateFile repo_file_path
        ("Update " ++ file_name ++ " - " ++ current_time) content contents_sha branch]
      match w.updateFileResult with
      | .ok _ => afterFile callsC (printsA ++
          ["Updated file " ++ repo_file_path ++ " in branch " ++ branch])
      | .error _ => createStep callsC
    | .error _ => createStep callsB
  let calls3 := calls2 ++ [RemoteCall.getContents repo_folder_path branch]
  match w.folderContentsResult with
  | .ok _ =>
    fileStep calls3 (prints2 ++ ["Folder " ++ repo_folder_path ++ " exists"])
  | .error _ =>
    let calls4 := calls3 ++ [RemoteCall.createFile (repo_folder_path ++ "/.gitkeep")
      ("Create folder " ++ repo_folder_path) "" branch]
    match w.gitkeepCreateResult with
    | .error e => ghFail calls4 prints2 e.message
    | .ok _ =>
      fileStep calls4 (prints2 ++ ["Created folder " ++ repo_folder_path])

/-! ## `auto_update_script.py`: `main` -/

/-- Everything external one run of `auto_update_script.main` consults:
the `GITHUB_TOKEN` environment variable (`none` = unset), the two
wall-clock reads (`now1` at line 154 in `main`, `now2` at line 45 inside
`create_branch_and_pr` — the script reads the clock twice), the working
directory, and the oracles for the fetch stage and the remote calls. -/
structure MainWorld where
  github_token : Option String
  now1 : DateTime
  now2 : DateTime
  cwd : String
  fetch : FetchWorld
  remote : RemoteWorld
deriving Repr

/-- What one run of `auto_update_script.main` did: process exit code and
the combined traces. A normal return from `main` is exit code 0. -/
structure MainResult where
  exitCode : Nat
  dirs : List String
  httpGets : List String
  writes : List (String × String)
  remoteCalls : List RemoteCall
  prints : List String
deriving Repr

/-- The target repository hard-coded at line 149. -/
def repo_name : String := "AdityaSreevatsaK/GetCityBikeData"

/-- The source URL hard-coded at line 150. -/
def api_url : String := "https://gbfs.citibikenyc.com/gbfs/en/station_status.json"

namespace AutoUpdate

/-- Shallow embedding of `main` (lines 142–177 of `auto_update_script.py`).
`os.environ.get` gives `None` when unset; `if not github_token:` is
Python falsiness, so an empty string takes the same exit-1 path as an
absent variable, before anything else runs. Otherwise: derive folder and
file names from the single clock read `now1`, fetch (which also writes
the local file), exit 1 if that returned `None`, publish, exit 1 on
`False`, else print the completion line and return (exit 0). -/
def main (w : MainWorld) : MainResult :=
  let tokenFalsy := w.github_token = Option.none ∨ w.github_token = some ""
  if tokenFalsy then
    { exitCode := 1, dirs := [], httpGets := [], writes := [], remoteCalls := []
      prints := ["Error: GITHUB_TOKEN environment variable is not set."] }
  else
    let github_token := w.github_token.getD ""
    let folder_name := fmtISODate w.now1
    let file_name := "Station-Status_" ++ fmtFileTs w.now1 ++ ".json"
    let local_folder_path := w.cwd ++ "/" ++ folder_name
    let fr := fetch_citybike_data w.fetch api_url local_folder_path file_name
    match fr.ret with
    | Option.none =>
      { exitCode := 1, dirs := fr.dirs, httpGets := fr.httpGets
        writes := fr.writes, remoteCalls := [], prints := fr.prints }
    | some file_path =>
      let pr := create_branch_and_pr w.remote fr.writes w.now2 github_token
        repo_name file_path folder_name
      if pr.success then
        { exitCode := 0, dirs := fr.dirs, httpGets := fr.httpGets
          writes := fr.writes, remoteCalls := pr.calls
          prints := fr.prints ++ pr.prints ++ ["Process completed successfully."] }
      else
        { exitCode := 1, dirs := fr.dirs, httpGets := fr.httpGets
          writes := fr.writes, remoteCalls := pr.calls
          prints := fr.prints ++ pr.prints }

end AutoUpdate

/-! ## Concrete worlds used by scenario theorems and witnesses -/

/-- The scenario instant 2024-01-05 14:30:00. -/
def t0 : DateTime := ⟨2024, 1, 5, 14, 30, 0⟩

/-- The same run two seconds later: 2024-01-05 14:30:02. -/
def t2s : DateTime := ⟨2024, 1, 5, 14, 30, 2⟩

/-- The scenario payload of §8 of the spec. -/
def payload6 : String := "\x7b\"data\":[\"x\"]\x7d"

/-- A remote on which every call succeeds and neither the date folder nor
the snapshot file exists yet on the new branch. -/
def okRemoteNew : RemoteWorld :=
  ⟨.ok (), "main", .ok "sha0", .ok (), .error .notFound, .ok (), .error .notFound,
    .ok (), .ok (), .ok 7, .ok (), .ok ⟨200, "ok"⟩⟩

/-- A fetch stage where directory creation and the file write succeed and
the GET returns `r`. -/
def okFetchWith (r : HttpResponse) : FetchWorld := ⟨.ok (), .ok r, .ok ()⟩

/-- The §8 scenario run, except that the second clock read (inside
`create_branch_and_pr`) falls two seconds after the first. -/
def cw6 : MainWorld :=
  ⟨some "tok", t0, t2s, "/work", okFetchWith ⟨200, payload6⟩, okRemoteNew⟩

/-- The §8 scenario run with both clock reads returning the same instant. -/
def cw6same : MainWorld :=
  ⟨some "tok", t0, t0, "/work", okFetchWith ⟨200, payload6⟩, okRemoteNew⟩

/-! ## C9: empty credential behaves like an absent credential -/

/-- C9: when `GITHUB_TOKEN` is unset or set to the empty string, `main`
prints the configuration error and exits with code 1 having taken no
filesystem, HTTP or remote action (`if not github_token:` is Python
falsiness, so both cases take the same first-statement exit). -/
theorem C9_empty_token_like_absent (w : MainWorld)
    (h : w.github_token = Option.none ∨ w.github_token = some "") :
    (AutoUpdate.main w).exitCode = 1 ∧
      (AutoUpdate.main w).dirs = [] ∧
      (AutoUpdate.main w).httpGets = [] ∧
      (AutoUpdate.main w).writes = [] ∧
      (AutoUpdate.main w).remoteCalls = [] ∧
      (AutoUpdate.main w).prints =
        ["Error: GITHUB_TOKEN environment variable is not set."] := by
  rcases h with h | h <;> simp [AutoUpdate.main, h]

/-- Witness for C9: the empty-string credential at an otherwise
fully-working world. -/
theorem C9_empty_token_like_absent_witness :
    (AutoUpdate.main ⟨some "", t0, t0, "/work",
        okFetchWith ⟨200, payload6⟩, okRemoteNew⟩).exitCode = 1 ∧
      (AutoUpdate.main ⟨some "", t0, t0, "/work",
        okFetchWith ⟨200, payload6⟩, okRemoteNew⟩).dirs = [] ∧
      (AutoUpdate.main ⟨some "", t0, t0, "/work",
        okFetchWith ⟨200, payload6⟩, okRemoteNew⟩).httpGets = [] ∧
      (AutoUpdate.main ⟨some "", t0, t0, "/work",
        okFetchWith ⟨200, payload6⟩, okRemoteNew⟩).writes = [] ∧
      (AutoUpdate.main ⟨some "", t0, t0, "/work",
        okFetchWith ⟨200, payload6⟩, okRemoteNew⟩).remoteCalls = [] ∧
      (AutoUpdate.main ⟨some "", t0, t0, "/work",
        okFetchWith ⟨200, payload6⟩, okRemoteNew⟩).prints =
        ["Error: GITHUB_TOKEN environment variable is not set."] :=
  C9_empty_token_like_absent _ (Or.inr rfl)

/-! ## C10: the fetch stage is total and collapses every failure to None -/

/-- All three external actions of the fetch stage succeed. -/
def FetchWorld.allOk (w : FetchWorld) : Bool :=
  (match w.makedirsResult with | .ok _ => true | .error _ => false) &&
    (match w.httpResult with
      | .ok r => decide (r.status < 400)
      | .error _ => false) &&
    (match w.writeResult with | .ok _ => true | .error _ => false)

/-- C10: whenever any of the three external actions of
`fetch_citybike_data` fails — directory creation, the GET (transport
error or error status), or the file write — the function returns the
sentinel `None` and prints exactly one downloading-error line; the
failure kinds are indistinguishable to the caller. (Totality holds by
construction: the whole body is one `try`/`except Exception`.) -/
theorem C10_fetch_failure_sentinel (w : FetchWorld) (url folder file : String)
    (h : w.allOk = false) :
    (fetch_citybike_data w url folder file).ret = Option.none ∧
      ∃ e, (fetch_citybike_data w url folder file).prints =
        ["Error downloading data: " ++ e] := by
  obtain ⟨mk, hr, wr⟩ := w
  cases mk with
  | error e => exact ⟨rfl, e, rfl⟩
  | ok u =>
    cases u
    cases hr with
    | error e => exact ⟨rfl, e, rfl⟩
    | ok r =>
      by_cases hs : 400 ≤ r.status
      · refine ⟨?_, toString r.status ++ " Error for url", ?_⟩ <;>
          simp [fetch_citybike_data, raise_for_status, hs]
      · cases wr with
        | error e =>
          refine ⟨?_, e, ?_⟩ <;>
            simp [fetch_citybike_data, raise_for_status, hs]
        | ok u2 =>
          cases u2
          exfalso
          simp [FetchWorld.allOk] at h
          omega

/-- Witness for C10: a permission failure of `os.makedirs`. -/
theorem C10_fetch_failure_sentinel_witness :
    (fetch_citybike_data ⟨.error "Permission denied", .ok ⟨200, "body"⟩, .ok ()⟩
        api_url "/work/2024-01-05" "f.json").ret = Option.none ∧
      ∃ e, (fetch_citybike_data ⟨.error "Permission denied", .ok ⟨200, "body"⟩, .ok ()⟩
        api_url "/work/2024-01-05" "f.json").prints =
          ["Error downloading data: " ++ e] :=
  C10_fetch_failure_sentinel _ _ _ _ rfl

/-! ## C1: what a failing GET does to each script -/

/-- The GET failed: transport error, or a status `raise_for_status`
raises on. -/
def fetchFails (hr : Except String HttpResponse) : Bool :=
  match hr with
  | .ok r => 400 ≤ r.status
  | .error _ => true

/-- C1 counterexample: in `get_citybike_snapshots.py` an HTTP 500 does
NOT abort the run — the exception is caught, `data` becomes the empty
dict, the snapshot file is still written (containing `str(\x7b\x7d)`),
and the script completes with exit code 0. -/
theorem C1_counterexample_snapshots_continue_on_500 :
    (Snapshots.run (.ok ⟨500, "Internal Server Error"⟩) t0 false).exitCode = 0 ∧
      (Snapshots.run (.ok ⟨500, "Internal Server Error"⟩) t0 false).writes =
        [("05-01-2024/05-01-2024_Hour-14.txt", "\x7b\x7d")] ∧
      (Snapshots.run (.ok ⟨500, "Internal Server Error"⟩) t0 false).logs =
        ["Failed to fetch data: 500 Error for url"] := by
  decide

/-- C1 amended: in `auto_update_script.py` a failing GET (transport error
or status ≥ 400) makes the pipeline exit with code 1 having written no
local file and issued no remote hosting-platform call; the simpler
variant `get_citybike_snapshots.py` instead logs the failure and
completes normally (exit code 0), still writing a snapshot file. -/
theorem C1_amended_fetch_failure_aborts (tok : String) (htok : ¬ tok = "")
    (t1 t2 : DateTime) (cwd : String) (hr : Except String HttpResponse)
    (wres : Except String Unit) (rw : RemoteWorld)
    (hfail : fetchFails hr = true) :
    ((AutoUpdate.main ⟨some tok, t1, t2, cwd, ⟨.ok (), hr, wres⟩, rw⟩).exitCode = 1 ∧
      (AutoUpdate.main ⟨some tok, t1, t2, cwd, ⟨.ok (), hr, wres⟩, rw⟩).writes = [] ∧
      (AutoUpdate.main ⟨some tok, t1, t2, cwd, ⟨.ok (), hr, wres⟩, rw⟩).remoteCalls = []) ∧
    ((Snapshots.run (.ok ⟨500, "Internal Server Error"⟩) t0 false).exitCode = 0 ∧
      (Snapshots.run (.ok ⟨500, "Internal Server Error"⟩) t0 false).writes ≠ []) := by
  have h400 : ∀ r : HttpResponse, fetchFails (.ok r) = true → 400 ≤ r.status := by
    intro r h; simpa [fetchFails] using h
  refine ⟨⟨?_, ?_, ?_⟩, by decide, by decide⟩ <;>
  · cases hr with
    | error e => simp [AutoUpdate.main, fetch_citybike_data, htok]
    | ok r =>
      simp [AutoUpdate.main, fetch_citybike_data, raise_for_status, htok,
        h400 r hfail]

/-- Witness for C1 at a 500 response with everything else healthy. -/
theorem C1_amended_fetch_failure_aborts_witness :
    ((AutoUpdate.main ⟨some "tok", t0, t0, "/work",
        ⟨.ok (), .ok ⟨500, "Internal Server Error"⟩, .ok ()⟩, okRemoteNew⟩).exitCode = 1 ∧
      (AutoUpdate.main ⟨some "tok", t0, t0, "/work",
        ⟨.ok (), .ok ⟨500, "Internal Server Error"⟩, .ok ()⟩, okRemoteNew⟩).writes = [] ∧
      (AutoUpdate.main ⟨some "tok", t0, t0, "/work",
        ⟨.ok (), .ok ⟨500, "Internal Server Error"⟩, .ok ()⟩, okRemoteNew⟩).remoteCalls = []) ∧
    ((Snapshots.run (.ok ⟨500, "Internal Server Error"⟩) t0 false).exitCode = 0 ∧
      (Snapshots.run (.ok ⟨500, "Internal Server Error"⟩) t0 false).writes ≠ []) :=
  C1_amended_fetch_failure_aborts "tok" (by decide) t0 t0 "/work"
    (.ok ⟨500, "Internal Server Error"⟩) (.ok ()) okRemoteNew rfl

/-! ## C2: is the written payload the response body verbatim? -/

/-- C2 counterexample: for the body `\x7b"data":["x"]\x7d`, the simpler
variant writes `str(json.loads(body))` — Python dict syntax with single
quotes — which is not the response body. -/
theorem C2_counterexample_snapshots_transforms_body :
    (Snapshots.run (.ok ⟨200, payload6⟩) t0 true).writes =
      [("05-01-2024/05-01-2024_Hour-14.txt",
        "\x7b" ++ pyQuote ++ "data" ++ pyQuote ++ ": [" ++ pyQuote ++ "x" ++
          pyQuote ++ "]\x7d")] ∧
      (Snapshots.run (.ok ⟨200, payload6⟩) t0 true).writes ≠
        [("05-01-2024/05-01-2024_Hour-14.txt", payload6)] := by
  decide

/-- C2 amended: `auto_update_script.py` does write the response body
verbatim — for every successful fetch the one file written carries
exactly `response.text`; it is the simpler variant that reserializes. -/
theorem C2_amended_auto_update_writes_verbatim
    (url folder file text : String) (status : Nat) (h : status < 400) :
    (fetch_citybike_data (okFetchWith ⟨status, text⟩) url folder file).writes =
      [(folder ++ "/" ++ file, text)] ∧
    (fetch_citybike_data (okFetchWith ⟨status, text⟩) url folder file).ret =
      some (folder ++ "/" ++ file) := by
  constructor <;>
    simp [fetch_citybike_data, okFetchWith, raise_for_status,
      show ¬ 400 ≤ status from by omega]

/-- Witness for C2 at the §8 payload and status 200. -/
theorem C2_amended_auto_update_writes_verbatim_witness :
    (fetch_citybike_data (okFetchWith ⟨200, payload6⟩) api_url "/work/2024-01-05"
        "Station-Status_2024-01-05_14-30-00.json").writes =
      [("/work/2024-01-05" ++ "/" ++ "Station-Status_2024-01-05_14-30-00.json",
        payload6)] ∧
    (fetch_citybike_data (okFetchWith ⟨200, payload6⟩) api_url "/work/2024-01-05"
        "Station-Status_2024-01-05_14-30-00.json").ret =
      some ("/work/2024-01-05" ++ "/" ++ "Station-Status_2024-01-05_14-30-00.json") :=
  C2_amended_auto_update_writes_verbatim api_url "/work/2024-01-05"
    "Station-Status_2024-01-05_14-30-00.json" payload6 200 (by decide)

/-! ## C3: folder and file naming -/

/-- Modelled from the spec: a string matching the pattern `YYYY-MM-DD` —
four digits, a dash, two digits, a dash, two digits. Written from the
wording of §8 to compare against what each script actually produces. -/
def matchesSpecDatePattern (s : String) : Bool :=
  match s.data with
  | [c0, c1, c2, c3, c4, c5, c6, c7, c8, c9] =>
      c0.isDigit && c1.isDigit && c2.isDigit && c3.isDigit && (c4 == '-') &&
        c5.isDigit && c6.isDigit && (c7 == '-') && c8.isDigit && c9.isDigit
  | _ => false

theorem digitChar_lt_isDigit : ∀ m, m < 10 → (Nat.digitChar m).isDigit = true := by
  decide

theorem digitChar_mod_isDigit (n : Nat) :
    (Nat.digitChar (n % 10)).isDigit = true :=
  digitChar_lt_isDigit (n % 10) (Nat.mod_lt _ (by omega))

theorem fmtISODate_data (t : DateTime) :
    (fmtISODate t).data =
      [Nat.digitChar (t.year / 1000 % 10), Nat.digitChar (t.year / 100 % 10),
       Nat.digitChar (t.year / 10 % 10), Nat.digitChar (t.year % 10), Char.ofNat 45,
       Nat.digitChar (t.month / 10 % 10), Nat.digitChar (t.month % 10), Char.ofNat 45,
       Nat.digitChar (t.day / 10 % 10), Nat.digitChar (t.day % 10)] := by
  rfl

/-- C3 counterexample: at the instant 2024-01-05 14:30:00 the simpler
variant names its folder `05-01-2024` (day-month-year), which does not
match the `YYYY-MM-DD` pattern and is not the calendar date rendering
`2024-01-05` of that instant. -/
theorem C3_counterexample_snapshots_folder_not_iso :
    ((Snapshots.run (.ok ⟨200, "\x7b\x7d"⟩) t0 true).writes.map Prod.fst) =
      ["05-01-2024/05-01-2024_Hour-14.txt"] ∧
      matchesSpecDatePattern "05-01-2024" = false ∧
      "05-01-2024" ≠ fmtISODate t0 := by
  decide

/-- C3 amended: for every instant, `auto_update_script.py` derives folder
`YYYY-MM-DD` (matching the pattern) and file
`Station-Status_<YYYY-MM-DD_HH-MM-SS>.json` from one clock read; the
simpler variant derives, from one clock read, folder `DD-MM-YYYY` (not
`YYYY-MM-DD`) and the hour-bucketed file `<DD-MM-YYYY>_Hour-<HH>.txt`. -/
theorem C3_amended_snapshot_naming (t : DateTime) (resp : HttpResponse)
    (ex : Bool) (rw : RemoteWorld) (hs : resp.status < 400) :
    matchesSpecDatePattern (fmtISODate t) = true ∧
      ((AutoUpdate.main ⟨some "tok", t, t, "/work", okFetchWith resp, rw⟩).writes.map
          Prod.fst) =
        ["/work" ++ "/" ++ fmtISODate t ++ "/" ++
          ("Station-Status_" ++ fmtFileTs t ++ ".json")] ∧
      ((Snapshots.run (.ok resp) t ex).writes.map Prod.fst) =
        [fmtDMYDate t ++ "/" ++ fmtDMYDate t ++ "_Hour-" ++ pad2 t.hour ++ ".txt"] := by
  refine ⟨?_, ?_, ?_⟩
  · rw [matchesSpecDatePattern, fmtISODate_data]
    simp [digitChar_mod_isDigit]
  · have hns : ¬ 400 ≤ resp.status := by omega
    simp only [AutoUpdate.main, fetch_citybike_data, okFetchWith,
      raise_for_status, hns, if_false]
    simp
    split <;> simp
  · simp [Snapshots.run]

/-- Witness for C3 at the §8 instant and payload. -/
theorem C3_amended_snapshot_naming_witness :
    matchesSpecDatePattern (fmtISODate t0) = true ∧
      ((AutoUpdate.main ⟨some "tok", t0, t0, "/work",
          okFetchWith ⟨200, payload6⟩, okRemoteNew⟩).writes.map Prod.fst) =
        ["/work" ++ "/" ++ fmtISODate t0 ++ "/" ++
          ("Station-Status_" ++ fmtFileTs t0 ++ ".json")] ∧
      ((Snapshots.run (.ok ⟨200, payload6⟩) t0 true).writes.map Prod.fst) =
        [fmtDMYDate t0 ++ "/" ++ fmtDMYDate t0 ++ "_Hour-" ++ pad2 t0.hour ++ ".txt"] :=
  C3_amended_snapshot_naming t0 ⟨200, payload6⟩ true okRemoteNew (by decide)

/-! ## C4: the create-vs-update decision -/

/-- Local snapshot path used by the publish-step theorems. -/
def c4fp : String := "/work/2024-01-05/Station-Status_2024-01-05_14-30-00.json"

/-- The remote path the publisher derives from `c4fp` and folder
`2024-01-05`. -/
def c4rp : String := "2024-01-05/Station-Status_2024-01-05_14-30-00.json"

/-- A remote on which every call succeeds, the folder exists, and the
file-existence probe returns `fres`. -/
def c4World (defB sha : String) (fres : Except GhErr String) : RemoteWorld :=
  ⟨.ok (), defB, .ok sha, .ok (), .ok (), .ok (), fres, .ok (), .ok (), .ok 7,
    .ok (), .ok ⟨200, "ok"⟩⟩

/-- C4: the create-vs-update decision is driven by the file-existence
probe alone: when `get_contents` reports the file with revision `R`, the
publisher issues an update call carrying exactly `R` (and no create call
for any path); when the probe fails (file absent), it issues a create
call for the remote path (and no update call for any path). -/
theorem C4_create_vs_update_pure (pubNow : DateTime)
    (defB sha content R : String) (ge : GhErr) :
    (RemoteCall.updateFile c4rp
        ("Update Station-Status_2024-01-05_14-30-00.json - " ++ fmtBranchTs pubNow)
        content R (new_branch_name pubNow) ∈
      (create_branch_and_pr (c4World defB sha (.ok R)) [(c4fp, content)] pubNow
        "tok" repo_name c4fp "2024-01-05").calls) ∧
    (∀ p m c b, RemoteCall.createFile p m c b ∉
      (create_branch_and_pr (c4World defB sha (.ok R)) [(c4fp, content)] pubNow
        "tok" repo_name c4fp "2024-01-05").calls) ∧
    (RemoteCall.createFile c4rp
        ("Add Station-Status_2024-01-05_14-30-00.json - " ++ fmtBranchTs pubNow)
        content (new_branch_name pubNow) ∈
      (create_branch_and_pr (c4World defB sha (.error ge)) [(c4fp, content)] pubNow
        "tok" repo_name c4fp "2024-01-05").calls) ∧
    (∀ p m c s b, RemoteCall.updateFile p m c s b ∉
      (create_branch_and_pr (c4World defB sha (.error ge)) [(c4fp, content)] pubNow
        "tok" repo_name c4fp "2024-01-05").calls) := by
  have hlookup : ([(c4fp, content)] : List (String × String)).lookup c4fp =
      some content := by
    simp [List.lookup]
  have hb1 : basename "2024-01-05" = "2024-01-05" := rfl
  have hb2 : basename c4fp = "Station-Status_2024-01-05_14-30-00.json" := by
    rfl
  refine ⟨?_, ?_, ?_, ?_⟩ <;>
    simp [create_branch_and_pr, c4World, hlookup, hb1, hb2, c4rp]

/-! ## C5: which remote failures are fatal during the read steps -/

/-- A remote whose folder and file existence probes fail with server
errors (not not-found), everything else healthy. -/
def cw5 : RemoteWorld :=
  ⟨.ok (), "main", .ok "sha0", .ok (), .error (GhErr.other "500 Internal Server Error"),
    .ok (), .error (GhErr.other "502 Bad Gateway"), .ok (), .ok (), .ok 7, .ok (),
    .ok ⟨200, "ok"⟩⟩

/-- C5 counterexample: a server error (not a not-found) on the folder and
file read calls is NOT fatal — the bare `except Exception` treats it as
the steer-to-create signal, the publisher issues the remaining create,
PR and label calls and returns success. -/
theorem C5_counterexample_server_error_not_fatal :
    (create_branch_and_pr cw5 [(c4fp, "x")] t0 "tok" repo_name c4fp
        "2024-01-05").success = true ∧
      RemoteCall.createFile "2024-01-05/.gitkeep" "Create folder 2024-01-05" ""
          "data-update-20240105_143000" ∈
        (create_branch_and_pr cw5 [(c4fp, "x")] t0 "tok" repo_name c4fp
          "2024-01-05").calls ∧
      RemoteCall.addToLabels 7 "auto-merge" ∈
        (create_branch_and_pr cw5 [(c4fp, "x")] t0 "tok" repo_name c4fp
          "2024-01-05").calls := by
  decide

/-- C5 amended: ANY failure of the folder/file read calls — not-found or
otherwise — is caught and treated as the non-fatal steer-to-create
signal, and the remaining transitions still run; a failure of the write
calls themselves (here `create_file`) reaches the outer handler and is
fatal, aborting the remaining transitions. -/
theorem C5_amended_read_failures_nonfatal (pubNow : DateTime)
    (defB sha content : String) (ge1 ge2 ge3 : GhErr) :
    ((create_branch_and_pr
        ⟨.ok (), defB, .ok sha, .ok (), .error ge1, .ok (), .error ge2, .ok (),
          .ok (), .ok 7, .ok (), .ok ⟨200, "ok"⟩⟩
        [(c4fp, content)] pubNow "tok" repo_name c4fp "2024-01-05").success = true ∧
      RemoteCall.createFile ("2024-01-05" ++ "/.gitkeep")
          ("Create folder " ++ "2024-01-05") "" (new_branch_name pubNow) ∈
        (create_branch_and_pr
          ⟨.ok (), defB, .ok sha, .ok (), .error ge1, .ok (), .error ge2, .ok (),
            .ok (), .ok 7, .ok (), .ok ⟨200, "ok"⟩⟩
          [(c4fp, content)] pubNow "tok" repo_name c4fp "2024-01-05").calls ∧
      RemoteCall.createFile c4rp
          ("Add Station-Status_2024-01-05_14-30-00.json - " ++ fmtBranchTs pubNow)
          content (new_branch_name pubNow) ∈
        (create_branch_and_pr
          ⟨.ok (), defB, .ok sha, .ok (), .error ge1, .ok (), .error ge2, .ok (),
            .ok (), .ok 7, .ok (), .ok ⟨200, "ok"⟩⟩
          [(c4fp, content)] pubNow "tok" repo_name c4fp "2024-01-05").calls ∧
      RemoteCall.addToLabels 7 "auto-merge" ∈
        (create_branch_and_pr
          ⟨.ok (), defB, .ok sha, .ok (), .error ge1, .ok (), .error ge2, .ok (),
            .ok (), .ok 7, .ok (), .ok ⟨200, "ok"⟩⟩
          [(c4fp, content)] pubNow "tok" repo_name c4fp "2024-01-05").calls) ∧
    ((create_branch_and_pr
        ⟨.ok (), defB, .ok sha, .ok (), .ok (), .ok (), .error GhErr.notFound,
          .ok (), .error ge3, .ok 7, .ok (), .ok ⟨200, "ok"⟩⟩
        [(c4fp, content)] pubNow "tok" repo_name c4fp "2024-01-05").success = false ∧
      (∀ t b hd bs, RemoteCall.createPull t b hd bs ∉
        (create_branch_and_pr
          ⟨.ok (), defB, .ok sha, .ok (), .ok (), .ok (), .error GhErr.notFound,
            .ok (), .error ge3, .ok 7, .ok (), .ok ⟨200, "ok"⟩⟩
          [(c4fp, content)] pubNow "tok" repo_name c4fp "2024-01-05").calls) ∧
      (∀ n l, RemoteCall.addToLabels n l ∉
        (create_branch_and_pr
          ⟨.ok (), defB, .ok sha, .ok (), .ok (), .ok (), .error GhErr.notFound,
            .ok (), .error ge3, .ok 7, .ok (), .ok ⟨200, "ok"⟩⟩
          [(c4fp, content)] pubNow "tok" repo_name c4fp "2024-01-05").calls)) := by
  have hlookup : ([(c4fp, content)] : List (String × String)).lookup c4fp =
      some content := by
    simp [List.lookup]
  have hb1 : basename "2024-01-05" = "2024-01-05" := rfl
  have hb2 : basename c4fp = "Station-Status_2024-01-05_14-30-00.json" := rfl
  refine ⟨⟨?_, ?_, ?_, ?_⟩, ?_, ?_, ?_⟩ <;>
    simp [create_branch_and_pr, hlookup, hb1, hb2, c4rp, ghFail]

/-! ## C6: the end-to-end scenario and the two clock reads -/

/-- C6 counterexample: `main` reads the clock at line 154 and
`create_branch_and_pr` reads it AGAIN at line 45; when the second read
falls two seconds later (14:30:02), the file is named from 14:30:00 but
the branch is `data-update-20240105_143002`, not the claimed
`data-update-20240105_143000` — the two timestamps need not denote the
same instant. -/
theorem C6_counterexample_two_clock_reads :
    (AutoUpdate.main cw6).exitCode = 0 ∧
      (AutoUpdate.main cw6).writes =
        [("/work/2024-01-05/Station-Status_2024-01-05_14-30-00.json", payload6)] ∧
      (AutoUpdate.main cw6).remoteCalls =
        [.getRepo "AdityaSreevatsaK/GetCityBikeData",
         .getGitRef "heads/main",
         .createGitRef "refs/heads/data-update-20240105_143002" "sha0",
         .getContents "2024-01-05" "data-update-20240105_143002",
         .createFile "2024-01-05/.gitkeep" "Create folder 2024-01-05" ""
           "data-update-20240105_143002",
         .getContents "2024-01-05/Station-Status_2024-01-05_14-30-00.json"
           "data-update-20240105_143002",
         .createFile "2024-01-05/Station-Status_2024-01-05_14-30-00.json"
           "Add Station-Status_2024-01-05_14-30-00.json - 20240105_143002"
           payload6 "data-update-20240105_143002",
         .createPull "Update CitiBike Data - 20240105_143002"
           "Automatically generated PR with updated CitiBike data for 2024-01-05/Station-Status_2024-01-05_14-30-00.json."
           "data-update-20240105_143002" "main",
         .addToLabels 7 "auto-merge",
         .autoMergePut
           "https://api.github.com/repos/AdityaSreevatsaK/GetCityBikeData/pulls/7/auto_merge"
           "tok" "squash"] := by
  decide

/-- C6 amended: the end-to-end scenario holds when both clock reads of
the run return the same instant 2024-01-05 14:30:00: the local file
`2024-01-05/Station-Status_2024-01-05_14-30-00.json` carries exactly the
payload, branch `data-update-20240105_143000` is created, the file is
committed on that branch, and a PR labeled `auto-merge` is opened; the
run exits 0. -/
theorem C6_amended_scenario_same_instant :
    (AutoUpdate.main cw6same).exitCode = 0 ∧
      (AutoUpdate.main cw6same).writes =
        [("/work/2024-01-05/Station-Status_2024-01-05_14-30-00.json", payload6)] ∧
      (AutoUpdate.main cw6same).remoteCalls =
        [.getRepo "AdityaSreevatsaK/GetCityBikeData",
         .getGitRef "heads/main",
         .createGitRef "refs/heads/data-update-20240105_143000" "sha0",
         .getContents "2024-01-05" "data-update-20240105_143000",
         .createFile "2024-01-05/.gitkeep" "Create folder 2024-01-05" ""
           "data-update-20240105_143000",
         .getContents "2024-01-05/Station-Status_2024-01-05_14-30-00.json"
           "data-update-20240105_143000",
         .createFile "2024-01-05/Station-Status_2024-01-05_14-30-00.json"
           "Add Station-Status_2024-01-05_14-30-00.json - 20240105_143000"
           payload6 "data-update-20240105_143000",
         .createPull "Update CitiBike Data - 20240105_143000"
           "Automatically generated PR with updated CitiBike data for 2024-01-05/Station-Status_2024-01-05_14-30-00.json."
           "data-update-20240105_143000" "main",
         .addToLabels 7 "auto-merge",
         .autoMergePut
           "https://api.github.com/repos/AdityaSreevatsaK/GetCityBikeData/pulls/7/auto_merge"
           "tok" "squash"] := by
  decide

/-! ## C7: auto-merge-enable failure is non-fatal -/

/-- The §8 scenario world with the auto-merge outcome left open. -/
def c7World (am : Except String HttpResponse) : MainWorld :=
  ⟨some "tok", t0, t0, "/work", okFetchWith ⟨200, payload6⟩,
    ⟨.ok (), "main", .ok "sha0", .ok (), .error .notFound, .ok (),
      .error .notFound, .ok (), .ok (), .ok 7, .ok (), am⟩⟩

/-- The remote-call trace of the §8 scenario run (both clock reads at
2024-01-05 14:30:00), ending with the auto-merge request. -/
def c7Calls : List RemoteCall :=
  [.getRepo "AdityaSreevatsaK/GetCityBikeData",
   .getGitRef "heads/main",
   .createGitRef "refs/heads/data-update-20240105_143000" "sha0",
   .getContents "2024-01-05" "data-update-20240105_143000",
   .createFile "2024-01-05/.gitkeep" "Create folder 2024-01-05" ""
     "data-update-20240105_143000",
   .getContents "2024-01-05/Station-Status_2024-01-05_14-30-00.json"
     "data-update-20240105_143000",
   .createFile "2024-01-05/Station-Status_2024-01-05_14-30-00.json"
     "Add Station-Status_2024-01-05_14-30-00.json - 20240105_143000"
     payload6 "data-update-20240105_143000",
   .createPull "Update CitiBike Data - 20240105_143000"
     "Automatically generated PR with updated CitiBike data for 2024-01-05/Station-Status_2024-01-05_14-30-00.json."
     "data-update-20240105_143000" "main",
   .addToLabels 7 "auto-merge",
   .autoMergePut
     "https://api.github.com/repos/AdityaSreevatsaK/GetCityBikeData/pulls/7/auto_merge"
     "tok" "squash"]

/-- The §8 scenario filesystem after the fetch: the one snapshot file. -/
def c7fs : List (String × String) :=
  [("/work/2024-01-05/Station-Status_2024-01-05_14-30-00.json", payload6)]

/-- C7: a failure of the auto-merge-enable request is non-fatal. For
EVERY outcome of that request the publisher returns success with the
identical remote-call trace ending at the auto-merge request (nothing
follows it, nothing is rolled back, the PR open/labeled state is never
revisited); at a concrete transport error, the whole run still exits 0
and the failure shows up only as one logged line. -/
theorem C7_auto_merge_failure_nonfatal :
    (∀ am, (create_branch_and_pr
        ⟨.ok (), "main", .ok "sha0", .ok (), .error .notFound, .ok (),
          .error .notFound, .ok (), .ok (), .ok 7, .ok (), am⟩
        c7fs t0 "tok" repo_name
        "/work/2024-01-05/Station-Status_2024-01-05_14-30-00.json"
        "2024-01-05").success = true ∧
      (create_branch_and_pr
        ⟨.ok (), "main", .ok "sha0", .ok (), .error .notFound, .ok (),
          .error .notFound, .ok (), .ok (), .ok 7, .ok (), am⟩
        c7fs t0 "tok" repo_name
        "/work/2024-01-05/Station-Status_2024-01-05_14-30-00.json"
        "2024-01-05").calls = c7Calls) ∧
    (AutoUpdate.main (c7World (.error "Connection refused"))).exitCode = 0 ∧
    (AutoUpdate.main (c7World (.error "Connection refused"))).remoteCalls = c7Calls ∧
    (AutoUpdate.main (c7World (.error "Connection refused"))).prints =
      ["Successfully downloaded data to /work/2024-01-05/Station-Status_2024-01-05_14-30-00.json",
       "Created new branch: data-update-20240105_143000",
       "Created folder 2024-01-05",
       "Created new file 2024-01-05/Station-Status_2024-01-05_14-30-00.json in branch data-update-20240105_143000",
       "Created PR #7",
       "Added auto-merge label to PR",
       "Waiting for CI checks to complete...",
       "Error enabling auto-merge: Connection refused",
       "Process completed successfully."] :=
  ⟨fun _ => ⟨rfl, rfl⟩, by decide, by decide, by decide⟩
